import Mathlib

/-!
Shallow embedding of the resilient request layer of the secret-ai-sdk:
the exception taxonomy (`secret_ai_ex.py`), the retry engine (`_retry.py`)
and the enhanced client wrapper (`_enhanced_client.py`), with proofs about
the retry, classification and validation behaviour.
-/

namespace SecretAI

/-- Python values as they occur in responses: strings, ints, dicts, None.
Mirrors the payload shapes `_validate_response` inspects. -/
inductive PyVal where
  | str (s : String)
  | int (n : Int)
  | dict (entries : List (String × PyVal))
  | pyNone

/-- The exception taxonomy of `secret_ai_ex.py`.  Each variant is one
exception class; fields are the constructor arguments the class stores. -/
inductive PyErr where
  /-- `SecretAIResponseError(msg, response_data)` -/
  | responseError (msg : String) (response_data : Option PyVal)
  /-- `SecretAINetworkError(msg, original_error)` (direct instance) -/
  | networkError (msg : String) (original_error : Option PyErr)
  /-- `SecretAITimeoutError(timeout, operation)`, subclass of the network error -/
  | timeoutError (timeout : ℚ) (operation : String)
  /-- `SecretAIConnectionError(host, original_error)`, subclass of the network error -/
  | connectionError (host : String) (original_error : Option PyErr)
  /-- `SecretAIRetryExhaustedError(attempts, last_error)`, subclass of the network error -/
  | retryExhausted (attempts : Int) (last_error : Option PyErr)
  /-- `SecretAIAPIKeyMissingError()` -/
  | apiKeyMissing
  /-- `SecretAISecretValueMissingError(var)` -/
  | secretValueMissing (var : String)
  /-- `SecretAIInvalidInputError(msg)` -/
  | invalidInput (msg : Option String)
  /-- any exception that is not an SDK class (`ValueError`, `TypeError`, httpx
  errors caught as plain `Exception`, ...), carrying its `str()` text -/
  | otherError (msg : String)

/-- `isinstance(e, SecretAIResponseError)`. -/
def PyErr.isResponseInstance : PyErr → Bool
  | .responseError _ _ => true
  | _ => false

/-- `isinstance(e, SecretAITimeoutError)`. -/
def PyErr.isTimeoutInstance : PyErr → Bool
  | .timeoutError _ _ => true
  | _ => false

/-- `isinstance(e, SecretAIConnectionError)`. -/
def PyErr.isConnectionInstance : PyErr → Bool
  | .connectionError _ _ => true
  | _ => false

/-- `isinstance(e, SecretAINetworkError)`: true for the class itself and its
subclasses `SecretAITimeoutError`, `SecretAIConnectionError` and
`SecretAIRetryExhaustedError`, per the hierarchy in `secret_ai_ex.py`. -/
def PyErr.isNetworkFamily : PyErr → Bool
  | .networkError _ _ => true
  | .timeoutError _ _ => true
  | .connectionError _ _ => true
  | .retryExhausted _ _ => true
  | _ => false

/-- The configuration-kind errors of the taxonomy (missing API key, missing
required environment value); the spec groups these as `ConfigError`. -/
def PyErr.isConfigKind : PyErr → Bool
  | .apiKeyMissing => true
  | .secretValueMissing _ => true
  | _ => false

/-- `str(e)`: the message each constructor builds, with the
`Secret AI SDK Error: ` prefix added by the `SecretAIError` base class.
Numeric interpolation uses Lean rendering; the one variant whose CPython
float formatting could differ (`timeoutError`) never reaches the message
heuristic, being short-circuited by the `isinstance` network-family check. -/
def PyErr.message : PyErr → String
  | .responseError msg _ => "Secret AI SDK Error: Invalid response: " ++ msg
  | .networkError msg _ => "Secret AI SDK Error: Network error: " ++ msg
  | .timeoutError t op =>
      "Secret AI SDK Error: Network error: " ++ op ++ " timed out after " ++
        toString t ++ " seconds"
  | .connectionError h _ =>
      "Secret AI SDK Error: Network error: Failed to connect to " ++ h
  | .retryExhausted attempts _ =>
      "Secret AI SDK Error: Network error: All " ++ toString attempts ++
        " retry attempts failed"
  | .apiKeyMissing =>
      "Secret AI SDK Error: Missing API Key. Environment variable SECRET_AI_API_KEY must be set"
  | .secretValueMissing v =>
      "Secret AI SDK Error: Missing environment variable " ++ v ++ " must be set"
  | .invalidInput msg => "Secret AI SDK Error: " ++ msg.getD "Invalid value"
  | .otherError msg => msg

/-- The keyword list of `is_retryable_error` in `_retry.py`. -/
def retryableKeywords : List String :=
  ["timeout", "timed out", "connection", "network",
   "temporarily unavailable", "service unavailable",
   "502", "503", "504", "gateway timeout"]

/-- `str.lower()`: the message characters, lowercased. -/
def lowerChars (s : String) : List Char := s.toList.map Char.toLower

/-- Does the second list start with the first? -/
def leadsWith : List Char → List Char → Bool
  | [], _ => true
  | _ :: _, [] => false
  | a :: as, b :: bs => a == b && leadsWith as bs

/-- Is `needle` a contiguous run somewhere inside `haystack`? -/
def isSubrunOf (needle : List Char) : List Char → Bool
  | [] => needle.isEmpty
  | c :: rest => leadsWith needle (c :: rest) || isSubrunOf needle rest

/-- Python `needle in haystack` on strings: substring containment. -/
def containsSubstring (haystack : List Char) (needle : String) : Bool :=
  isSubrunOf needle.toList haystack

/-- `is_retryable_error` from `_retry.py`: response errors are not retryable;
network-family errors are; anything else falls back to a case-insensitive
keyword scan of its message. -/
def is_retryable_error (error : PyErr) : Bool :=
  if error.isResponseInstance then false
  else if error.isNetworkFamily then true
  else
    let error_msg := lowerChars error.message
    retryableKeywords.any (fun keyword => containsSubstring error_msg keyword)

/-- `calculate_delay` from `_retry.py`: exponential backoff capped by
`max_delay`. -/
def calculate_delay (attempt : Nat) (initial_delay : ℚ) (multiplier : ℚ)
    (max_delay : ℚ) : ℚ :=
  min (initial_delay * multiplier ^ attempt) max_delay

/-- The environment variables read by `_config.py`/`_retry.py`, already
parsed to their target types (the `int(...)`/`float(...)` conversion of the
raw text is outside the model); `none` means the variable is unset so
`os.getenv` falls back to the `_config.py` default. -/
structure Env where
  apiKey : Option String
  maxRetries : Option Int
  retryDelay : Option ℚ
  retryBackoff : Option ℚ
  maxRetryDelay : Option ℚ
  requestTimeout : Option ℚ
  connectTimeout : Option ℚ

/-- An environment with every variable unset. -/
def Env.empty : Env :=
  { apiKey := none, maxRetries := none, retryDelay := none, retryBackoff := none,
    maxRetryDelay := none, requestTimeout := none, connectTimeout := none }

/-- The dict returned by `get_retry_config`. -/
structure RetryConfigDict where
  max_retries : Int
  initial_delay : ℚ
  backoff_multiplier : ℚ
  max_delay : ℚ

/-- The dict returned by `get_timeout_config`. -/
structure TimeoutConfigDict where
  request_timeout : ℚ
  connect_timeout : ℚ

/-- `get_retry_config` from `_retry.py`: each field from the environment,
falling back to the `_config.py` defaults (3, 1, 2, 30); values are used as
parsed, with no domain validation. -/
def get_retry_config (env : Env) : RetryConfigDict :=
  { max_retries := env.maxRetries.getD 3
    initial_delay := env.retryDelay.getD 1
    backoff_multiplier := env.retryBackoff.getD 2
    max_delay := env.maxRetryDelay.getD 30 }

/-- `get_timeout_config` from `_retry.py` with the `_config.py` defaults
(30, 10). -/
def get_timeout_config (env : Env) : TimeoutConfigDict :=
  { request_timeout := env.requestTimeout.getD 30
    connect_timeout := env.connectTimeout.getD 10 }

/-- A wrapped operation: the outcome of its `attempt`-th invocation
(0-based), either a value or a raised exception. -/
def Operation (α : Type) := Nat → Except PyErr α

/-- What one run of a retry wrapper did: the value returned or error raised,
how many times the wrapped operation was invoked, and the sleeps performed
between attempts, in order. -/
structure RunTrace (α : Type) where
  result : Except PyErr α
  invocations : Nat
  delays : List ℚ

/-- The loop of `sync_wrapper` in `retry_with_backoff` (`_retry.py`):
`for attempt in range(max_retries + 1)` with, on failure, the last-attempt
check first, then the `retryable_exceptions` allow-list (when given) or the
classifier, then `time.sleep(calculate_delay(...))` before the next
iteration.  `remaining` is the number of loop iterations left; running out
of iterations reaches the final `raise SecretAIRetryExhaustedError` line
with the `last_error` accumulated so far.  The sleep itself is modelled by
recording the delay in the trace. -/
def syncGo (max_retries : Int) (initial_delay backoff_multiplier max_delay : ℚ)
    (retryable_exceptions : Option (PyErr → Bool)) (op : Operation α) :
    Nat → Nat → Option PyErr → RunTrace α
  | 0, _, last_error =>
    ⟨.error (.retryExhausted (max_retries + 1) last_error), 0, []⟩
  | remaining + 1, attempt, _ =>
    match op attempt with
    | .ok v => ⟨.ok v, 1, []⟩
    | .error e =>
      if (attempt : Int) ≥ max_retries then
        ⟨.error (.retryExhausted (max_retries + 1) (some e)), 1, []⟩
      else
        match retryable_exceptions with
        | some isListed =>
          if !isListed e then ⟨.error e, 1, []⟩
          else
            let rest := syncGo max_retries initial_delay backoff_multiplier max_delay
              (some isListed) op remaining (attempt + 1) (some e)
            ⟨rest.result, rest.invocations + 1,
              calculate_delay attempt initial_delay backoff_multiplier max_delay :: rest.delays⟩
        | none =>
          if !is_retryable_error e then ⟨.error e, 1, []⟩
          else
            let rest := syncGo max_retries initial_delay backoff_multiplier max_delay
              none op remaining (attempt + 1) (some e)
            ⟨rest.result, rest.invocations + 1,
              calculate_delay attempt initial_delay backoff_multiplier max_delay :: rest.delays⟩

/-- The loop of `async_wrapper` in `retry_with_backoff`: same text as
`sync_wrapper` except that the suspension is `await asyncio.sleep(...)`
instead of `time.sleep(...)`; the suspension is likewise modelled by
recording the delay in the trace. -/
def asyncGo (max_retries : Int) (initial_delay backoff_multiplier max_delay : ℚ)
    (retryable_exceptions : Option (PyErr → Bool)) (op : Operation α) :
    Nat → Nat → Option PyErr → RunTrace α
  | 0, _, last_error =>
    ⟨.error (.retryExhausted (max_retries + 1) last_error), 0, []⟩
  | remaining + 1, attempt, _ =>
    match op attempt with
    | .ok v => ⟨.ok v, 1, []⟩
    | .error e =>
      if (attempt : Int) ≥ max_retries then
        ⟨.error (.retryExhausted (max_retries + 1) (some e)), 1, []⟩
      else
        match retryable_exceptions with
        | some isListed =>
          if !isListed e then ⟨.error e, 1, []⟩
          else
            let rest := asyncGo max_retries initial_delay backoff_multiplier max_delay
              (some isListed) op remaining (attempt + 1) (some e)
            ⟨rest.result, rest.invocations + 1,
              calculate_delay attempt initial_delay backoff_multiplier max_delay :: rest.delays⟩
        | none =>
          if !is_retryable_error e then ⟨.error e, 1, []⟩
          else
            let rest := asyncGo max_retries initial_delay backoff_multiplier max_delay
              none op remaining (attempt + 1) (some e)
            ⟨rest.result, rest.invocations + 1,
              calculate_delay attempt initial_delay backoff_multiplier max_delay :: rest.delays⟩

/-- One call of a function decorated by `retry_with_backoff(...)`, blocking
variant: each decorator argument resolves against `get_retry_config` of the
environment in force when the decorator ran (module load), then the
`sync_wrapper` loop starts at attempt 0 with `last_error = None`. -/
def retry_with_backoff_sync (loadEnv : Env) (max_retries : Option Int)
    (initial_delay backoff_multiplier max_delay : Option ℚ)
    (retryable_exceptions : Option (PyErr → Bool)) (op : Operation α) : RunTrace α :=
  let config := get_retry_config loadEnv
  let m := max_retries.getD config.max_retries
  let d := initial_delay.getD config.initial_delay
  let b := backoff_multiplier.getD config.backoff_multiplier
  let dmax := max_delay.getD config.max_delay
  syncGo m d b dmax retryable_exceptions op (m + 1).toNat 0 none

/-- One call of a function decorated by `retry_with_backoff(...)`,
cooperative (async) variant. -/
def retry_with_backoff_async (loadEnv : Env) (max_retries : Option Int)
    (initial_delay backoff_multiplier max_delay : Option ℚ)
    (retryable_exceptions : Option (PyErr → Bool)) (op : Operation α) : RunTrace α :=
  let config := get_retry_config loadEnv
  let m := max_retries.getD config.max_retries
  let d := initial_delay.getD config.initial_delay
  let b := backoff_multiplier.getD config.backoff_multiplier
  let dmax := max_delay.getD config.max_delay
  asyncGo m d b dmax retryable_exceptions op (m + 1).toNat 0 none

/-- Association lookup in a Python dict literal (`d[k]` / `k in d`). -/
def lookupKey (entries : List (String × PyVal)) (k : String) : Option PyVal :=
  match entries with
  | [] => none
  | (k2, v) :: rest => if k2 = k then some v else lookupKey rest k

mutual

/-- `repr(v)` for the value shapes above, as CPython renders them: dicts as
`\x7b'k': v, ...\x7d`, strings in single quotes. -/
def pyRepr : PyVal → String
  | .str s => "\x27" ++ s ++ "\x27"
  | .int n => toString n
  | .pyNone => "None"
  | .dict entries => "\x7b" ++ pyReprEntries entries ++ "\x7d"

/-- The comma-separated `'key': value` runs inside a dict repr. -/
def pyReprEntries : List (String × PyVal) → String
  | [] => ""
  | [(k, v)] => "\x27" ++ k ++ "\x27: " ++ pyRepr v
  | (k, v) :: rest => "\x27" ++ k ++ "\x27: " ++ pyRepr v ++ ", " ++ pyReprEntries rest

end

/-- `str(v)`: a string renders bare, everything else as its repr. -/
def pyStr : PyVal → String
  | .str s => s
  | v => pyRepr v

/-- Python `"content" in v` for a value in container position: defined for
dicts (key membership) and strings (substring); `none` models the
`TypeError` that `in` raises on an int or `None`. -/
def pyContains (v : PyVal) (key : String) : Option Bool :=
  match v with
  | .dict entries => some (lookupKey entries key).isSome
  | .str s => some (containsSubstring s.toList key)
  | .int _ => none
  | .pyNone => none

/-- `_validate_response` from `_enhanced_client.py`: the exception raised
(if any) and the warnings logged.  Disabled validation returns at once; a
`None` response and a dict carrying an `error` key raise
`SecretAIResponseError`; a dict whose `message` value lacks a `content`
field only logs a warning (a non-container `message` value makes the `in`
test raise `TypeError`, modelled as `otherError`). -/
def validateResponse (validate_responses : Bool) (response : Option PyVal) :
    Option PyErr × List String :=
  if !validate_responses then (none, [])
  else
    match response with
    | none => (some (.responseError "Received null response" none), [])
    | some v =>
      match v with
      | .dict entries =>
        match lookupKey entries "error" with
        | some errVal =>
          (some (.responseError ("Server returned error: " ++ pyStr errVal)
            (some (.dict entries))), [])
        | none =>
          match lookupKey entries "message" with
          | some msgVal =>
            match pyContains msgVal "content" with
            | some true => (none, [])
            | some false => (none, ["Response message missing \x27content\x27 field"])
            | none =>
              (some (.otherError "TypeError: argument of type is not iterable"), [])
          | none => (none, [])
      | _ => (none, [])

/-- The state an `EnhancedSecretAIClient` holds after `__init__`: the
resolved timeouts, the retry settings stored on `self`, the validation
flag, the host, and the bearer header derived from the resolved API key. -/
structure EnhancedSecretAIClient where
  host : Option String
  request_timeout : ℚ
  connect_timeout : ℚ
  max_retries : Int
  retry_delay : ℚ
  retry_backoff : ℚ
  validate_responses : Bool
  authHeader : String

/-- `EnhancedSecretAIClient.__init__`: resolve the API key (explicit
argument, else the `SECRET_AI_API_KEY` environment value; a missing or
empty key raises `SecretAIAPIKeyMissingError` before anything else), fill
the timeout and retry fields from explicit arguments or
`get_timeout_config` / `get_retry_config`, and attach the `Bearer`
authorization header.  The underlying transport construction is treated as
succeeding. -/
def EnhancedSecretAIClient.create (env : Env) (host : Option String)
    (api_key : Option String) (timeout connect_timeout : Option ℚ)
    (max_retries : Option Int) (retry_delay retry_backoff : Option ℚ)
    (validate_responses : Bool) : Except PyErr EnhancedSecretAIClient :=
  let key := match api_key with
    | some k => some k
    | none => env.apiKey
  match key with
  | none => .error .apiKeyMissing
  | some k =>
    if k = "" then .error .apiKeyMissing
    else
      let timeout_config := get_timeout_config env
      let retry_config := get_retry_config env
      .ok
        { host := host
          request_timeout := timeout.getD timeout_config.request_timeout
          connect_timeout := connect_timeout.getD timeout_config.connect_timeout
          max_retries := max_retries.getD retry_config.max_retries
          retry_delay := retry_delay.getD retry_config.initial_delay
          retry_backoff := retry_backoff.getD retry_config.backoff_multiplier
          validate_responses := validate_responses
          authHeader := "Bearer " ++ k }

/-- What one call to the underlying transport (`super().generate(...)`)
does at a given attempt: a response, an httpx timeout, an httpx connect
failure, or any other exception. -/
inductive TransportOutcome where
  | ok (response : Option PyVal)
  | httpxTimeout (msg : String)
  | httpxConnectError (msg : String)
  | raiseErr (e : PyErr)

/-- `self.host or "default"` (Python falsiness: `None` and the empty string
both fall back). -/
def hostOrDefault (host : Option String) : String :=
  match host with
  | some h => if h = "" then "default" else h
  | none => "default"

/-- The trailing `except Exception` branch of `generate`/`chat`: timeout,
connection and response errors re-raise unchanged; anything else is wrapped
in `SecretAINetworkError(opPrefix + str(e), e)`. -/
def wrapUnexpected (opPrefix : String) (e : PyErr) : PyErr :=
  if e.isTimeoutInstance || e.isConnectionInstance || e.isResponseInstance then e
  else .networkError (opPrefix ++ e.message) (some e)

/-- The body of `EnhancedSecretAIClient.generate` for one attempt: call the
transport, validate the response, and map failures — httpx timeouts to
`SecretAITimeoutError(request_timeout, "generate")`, httpx connect errors
to `SecretAIConnectionError(host or "default", e)`, everything else through
the `except Exception` branch. -/
def generateAttempt (c : EnhancedSecretAIClient)
    (transport : Nat → TransportOutcome) (attempt : Nat) :
    Except PyErr (Option PyVal) :=
  match transport attempt with
  | .ok response =>
    match (validateResponse c.validate_responses response).1 with
    | none => .ok response
    | some e => .error (wrapUnexpected "Generate failed: " e)
  | .httpxTimeout _ => .error (.timeoutError c.request_timeout "generate")
  | .httpxConnectError msg =>
    .error (.connectionError (hostOrDefault c.host) (some (.otherError msg)))
  | .raiseErr e => .error (wrapUnexpected "Generate failed: " e)

/-- A full `client.generate(...)` call: the attempt body above run under
the `@retry_with_backoff()` decorator, which was applied with no arguments
at class definition time and therefore resolved every retry setting from
`get_retry_config(loadEnv)` — the environment at module load — never from
the fields stored on the client instance.  (`chat` has the identical
body except for the operation name in its messages.) -/
def clientGenerate (loadEnv : Env) (c : EnhancedSecretAIClient)
    (transport : Nat → TransportOutcome) : RunTrace (Option PyVal) :=
  retry_with_backoff_sync loadEnv none none none none none
    (generateAttempt c transport)

/-- An operation that raises a plain `SecretAINetworkError` on every
invocation. -/
def alwaysNetworkError : Operation Unit :=
  fun _ => .error (.networkError "Network error" none)

/-- An operation that raises a `SecretAIResponseError` on every
invocation. -/
def alwaysResponseError : Operation Unit :=
  fun _ => .error (.responseError "invalid payload shape" none)

/-- An operation that raises a `SecretAIResponseError` with the message
`Invalid response` on every invocation. -/
def alwaysInvalidResponse : Operation Unit :=
  fun _ => .error (.responseError "Invalid response" none)

/-- A client constructed with the explicit override `max_retries = 0`
under an empty environment. -/
def zeroRetryClient : Except PyErr EnhancedSecretAIClient :=
  EnhancedSecretAIClient.create Env.empty (some "http://host") (some "api-key")
    none none (some 0) none none true

/-- A client constructed with no overrides under an empty environment. -/
def defaultClient : Except PyErr EnhancedSecretAIClient :=
  EnhancedSecretAIClient.create Env.empty (some "http://host") (some "api-key")
    none none none none none true

/-- The client state `defaultClient` resolves to, written out. -/
def sampleClient : EnhancedSecretAIClient :=
  { host := some "http://host", request_timeout := 30, connect_timeout := 10,
    max_retries := 3, retry_delay := 1, retry_backoff := 2,
    validate_responses := true, authHeader := "Bearer api-key" }

/-- A transport that hits an httpx read timeout on every attempt. -/
def timeoutTransport : Nat → TransportOutcome :=
  fun _ => .httpxTimeout "read timed out"

/-- A transport that raises `ValueError("Invalid input")` on every
attempt. -/
def valueErrorTransport : Nat → TransportOutcome :=
  fun _ => .raiseErr (.otherError "Invalid input")

/-- Every network-family error is classified retryable: the classifier
returns before the keyword heuristic. -/
theorem retryable_of_network_family (e : PyErr) (h : e.isNetworkFamily = true) :
    is_retryable_error e = true := by
  unfold is_retryable_error
  have h2 : e.isResponseInstance = false := by
    cases e <;> simp_all [PyErr.isNetworkFamily, PyErr.isResponseInstance]
  simp [h, h2]

/-- An error the classifier rejects cannot be a retry-exhausted error,
since those are network-family. -/
theorem not_retryExhausted_of_not_retryable (e : PyErr)
    (h : is_retryable_error e = false) : ∀ (a : Int) (l : Option PyErr),
    e ≠ .retryExhausted a l := by
  intro a l he
  subst he
  rw [retryable_of_network_family (.retryExhausted a l) rfl] at h
  cases h

/-- The sync and async retry loops compute the same trace, input for
input. -/
theorem syncGo_eq_asyncGo {α : Type} (m : Int) (d b dm : ℚ)
    (filter : Option (PyErr → Bool)) (op : Operation α) :
    ∀ (remaining attempt : Nat) (last0 : Option PyErr),
      syncGo m d b dm filter op remaining attempt last0
        = asyncGo m d b dm filter op remaining attempt last0 := by
  intro remaining
  induction remaining with
  | zero => intro attempt last0; rfl
  | succ n ih =>
    intro attempt last0
    simp only [syncGo, asyncGo]
    cases hop : op attempt with
    | ok v => rfl
    | error e =>
      by_cases hge : (attempt : Int) ≥ m
      · simp [hge]
      · simp only [hge, if_false]
        cases filter with
        | some f =>
          by_cases hf : f e
          · simp [hf, ih]
          · simp [hf]
        | none =>
          by_cases hr : is_retryable_error e
          · simp [hr, ih]
          · simp [hr]

/-- When the classifier-driven sync loop ends in a retry-exhausted error,
it consumed all its iterations: `attempts = max_retries + 1`, the
invocation count equals the remaining budget, and `last_error` is the error
of the final invocation. -/
theorem syncGo_exhausted {α : Type} (m : Int) (d b dm : ℚ) (op : Operation α) :
    ∀ (remaining attempt : Nat) (last0 : Option PyErr) (a : Int) (last : Option PyErr),
      1 ≤ remaining →
      (attempt : Int) + remaining = m + 1 →
      (syncGo m d b dm none op remaining attempt last0).result
        = .error (.retryExhausted a last) →
      a = m + 1 ∧
      (syncGo m d b dm none op remaining attempt last0).invocations = remaining ∧
      ∃ e, op (attempt + (remaining - 1)) = .error e ∧ last = some e := by
  intro remaining
  induction remaining with
  | zero => intro attempt last0 a last h1; omega
  | succ n ih =>
    intro attempt last0 a last h1 h2 hres
    simp only [syncGo] at hres ⊢
    cases hop : op attempt with
    | ok v => simp [hop] at hres
    | error e =>
      simp only [hop] at hres ⊢
      by_cases hge : (attempt : Int) ≥ m
      · have hn : n = 0 := by omega
        subst hn
        simp only [if_pos hge] at hres ⊢
        simp only [Except.error.injEq, PyErr.retryExhausted.injEq] at hres
        exact ⟨hres.1.symm, trivial, e, by simpa using hop, hres.2.symm⟩
      · have hn : 1 ≤ n := by omega
        simp only [if_neg hge] at hres ⊢
        by_cases hr : is_retryable_error e = true
        · simp only [hr, Bool.not_true, Bool.false_eq_true, if_false] at hres ⊢
          obtain ⟨ha, hinv, e2, hop2, hlast⟩ :=
            ih (attempt + 1) (some e) a last hn (by push_cast at h2 ⊢; omega)
              (by simpa using hres)
          refine ⟨ha, ?_, e2, ?_, hlast⟩
          · simp only [hinv]
          · have hidx : attempt + 1 + (n - 1) = attempt + (n + 1 - 1) := by omega
            rwa [hidx] at hop2
        · have hr2 : is_retryable_error e = false := by simpa using hr
          simp only [hr2, Bool.not_false, if_true] at hres ⊢
          exact absurd (Except.error.inj hres)
            (not_retryExhausted_of_not_retryable e hr2 a last)

/-- C1: the claim says constructor-supplied retry overrides govern the
retry behaviour of `generate`/`chat`; the code does not do this.  A client
constructed with `max_retries = 0` under empty-environment defaults
(`max_retries = 3` at module load) has its `generate` invoke an
always-timing-out transport 4 times (the module-load default budget), not
1, and under a module-load environment with `max_retries = 1` the same
client performs 2 invocations: the decorator, applied with no arguments at
class definition, reads only the module-load environment and ignores the
fields stored on the instance. -/
theorem constructor_retry_overrides_ignored_C1 :
    (zeroRetryClient.map fun c =>
      (c.max_retries,
        (clientGenerate Env.empty c timeoutTransport).invocations,
        (clientGenerate Env.empty c timeoutTransport).result))
      = .ok (0, 4, .error (.retryExhausted 4 (some (.timeoutError 30 "generate")))) ∧
    (zeroRetryClient.map fun c =>
      (clientGenerate { Env.empty with maxRetries := some 1 } c
        timeoutTransport).invocations)
      = .ok 2 :=
  ⟨rfl, rfl⟩

/-- C2 counterexample: with `max_retries = 0` and an operation raising a
non-retryable `SecretAIResponseError`, the executor still raises
`RetryExhausted(1, ...)` — the final (and only) invocation error was not
retryable, contradicting the claim that a RetryExhausted is produced only
when the final error was retryable. -/
theorem retryExhausted_nonretryable_final_C2_cex :
    (retry_with_backoff_sync Env.empty (some 0) none none none none
        alwaysResponseError).result
      = .error (.retryExhausted 1 (some (.responseError "invalid payload shape" none))) ∧
    (retry_with_backoff_sync Env.empty (some 0) none none none none
        alwaysResponseError).invocations = 1 ∧
    is_retryable_error (.responseError "invalid payload shape" none) = false :=
  ⟨rfl, rfl, rfl⟩

/-- C2 (amended): for every `max_retries = m ≥ 0` and operation run under
the classifier (no explicit allow-list), a RetryExhausted result is
produced only after exactly `m + 1` invocations, carries
`attempts = m + 1`, and carries the error of the final invocation as
`last_error`; the final error need not be retryable, since the exhaustion
check precedes classification. -/
theorem retry_exhausted_after_all_attempts_C2 {α : Type} (env : Env) (m : Int)
    (hm : 0 ≤ m) (d b dm : Option ℚ) (op : Operation α) (a : Int)
    (last : Option PyErr)
    (hres : (retry_with_backoff_sync env (some m) d b dm none op).result
      = .error (.retryExhausted a last)) :
    a = m + 1 ∧
    ((retry_with_backoff_sync env (some m) d b dm none op).invocations : Int) = m + 1 ∧
    ∃ e, op m.toNat = .error e ∧ last = some e := by
  have hfuel : ((0 : Nat) : Int) + ((m + 1).toNat : Int) = m + 1 := by omega
  have h1 : 1 ≤ (m + 1).toNat := by omega
  obtain ⟨ha, hinv, e, hop, hlast⟩ :=
    syncGo_exhausted m (d.getD (get_retry_config env).initial_delay)
      (b.getD (get_retry_config env).backoff_multiplier)
      (dm.getD (get_retry_config env).max_delay) op (m + 1).toNat 0 none a last h1 hfuel hres
  refine ⟨ha, ?_, e, ?_, hlast⟩
  · have h3 : (retry_with_backoff_sync env (some m) d b dm none op).invocations
        = (m + 1).toNat := hinv
    omega
  · have hidx : 0 + ((m + 1).toNat - 1) = m.toNat := by omega
    rwa [hidx] at hop

/-- C2 witness: the exhaustion theorem applied at `m = 2` and an operation
raising a network error on all three attempts. -/
theorem retry_exhausted_after_all_attempts_C2_witness :
    (3 : Int) = 2 + 1 ∧
    ((retry_with_backoff_sync Env.empty (some 2) none none none none
        alwaysNetworkError).invocations : Int) = 2 + 1 ∧
    ∃ e, alwaysNetworkError (2 : Int).toNat = .error e ∧
      (some (PyErr.networkError "Network error" none) : Option PyErr) = some e :=
  retry_exhausted_after_all_attempts_C2 Env.empty 2 (by norm_num) none none none
    alwaysNetworkError 3 (some (.networkError "Network error" none)) rfl

/-- C3 counterexample: at `max_retries = 0` the operation raising a
non-retryable `SecretAIResponseError` is not re-raised unchanged — it comes
back wrapped in a RetryExhausted, which is a different error. -/
theorem nonretryable_wrapped_at_zero_C3_cex :
    (retry_with_backoff_sync Env.empty (some 0) none none none none
        alwaysInvalidResponse).result
      = .error (.retryExhausted 1 (some (.responseError "Invalid response" none))) ∧
    PyErr.retryExhausted 1 (some (.responseError "Invalid response" none))
      ≠ PyErr.responseError "Invalid response" none :=
  ⟨rfl, fun h => PyErr.noConfusion h⟩

/-- C3 (amended): for every `max_retries = m ≥ 1`, an operation whose first
invocation raises a non-retryable error is invoked exactly once and the
original error is re-raised unchanged, with no sleeps; at `m = 0` the
single error is instead wrapped in RetryExhausted (see the
counterexample). -/
theorem nonretryable_single_invocation_C3 {α : Type} (env : Env) (m : Int)
    (hm : 1 ≤ m) (d b dm : Option ℚ) (op : Operation α) (e : PyErr)
    (hop : op 0 = .error e) (hret : is_retryable_error e = false) :
    retry_with_backoff_sync env (some m) d b dm none op
      = ⟨.error e, 1, []⟩ := by
  show syncGo m _ _ _ none op (m + 1).toNat 0 none = _
  obtain ⟨k, hk⟩ : ∃ k, (m + 1).toNat = k + 1 := ⟨(m + 1).toNat - 1, by omega⟩
  rw [hk]
  have hge : ¬ ((0 : Nat) : Int) ≥ m := by omega
  simp only [syncGo, hop, if_neg hge, hret, Bool.not_false, if_true]

/-- C3 witness: the single-invocation theorem applied at `m = 3` and an
operation raising a response error. -/
theorem nonretryable_single_invocation_C3_witness :
    retry_with_backoff_sync Env.empty (some 3) none none none none
        alwaysInvalidResponse
      = ⟨.error (.responseError "Invalid response" none), 1, []⟩ :=
  nonretryable_single_invocation_C3 Env.empty 3 (by norm_num) none none none
    alwaysInvalidResponse (.responseError "Invalid response" none) rfl rfl

/-- C4 counterexample: a transport raising `ValueError("Invalid input")`
during `generate` does not propagate on first occurrence — the body wraps
it in a (retryable) `SecretAINetworkError`, so the transport is invoked 4
times under the default budget and a RetryExhausted is raised. -/
theorem unknown_error_retried_C4_cex :
    (defaultClient.map fun c =>
      ((clientGenerate Env.empty c valueErrorTransport).invocations,
        (clientGenerate Env.empty c valueErrorTransport).result))
      = .ok (4, .error (.retryExhausted 4 (some (.networkError
          "Generate failed: Invalid input" (some (.otherError "Invalid input")))))) :=
  rfl

/-- C4 (amended): an error that is neither an httpx timeout/connect error
nor one of the re-raised SDK types is wrapped by the `generate` body into
`SecretAINetworkError("Generate failed: " + str(e), e)`, which the
classifier always deems retryable — so such errors are retried to
exhaustion rather than propagating on first occurrence. -/
theorem unknown_error_wrapped_retryable_C4 (c : EnhancedSecretAIClient)
    (transport : Nat → TransportOutcome) (attempt : Nat) (msg : String)
    (htr : transport attempt = .raiseErr (.otherError msg)) :
    generateAttempt c transport attempt
      = .error (.networkError ("Generate failed: " ++ msg) (some (.otherError msg))) ∧
    is_retryable_error
      (.networkError ("Generate failed: " ++ msg) (some (.otherError msg))) = true := by
  refine ⟨?_, rfl⟩
  simp only [generateAttempt, htr, wrapUnexpected]
  rfl

/-- C4 witness: the wrapping theorem applied to a concrete client and the
`ValueError` transport. -/
theorem unknown_error_wrapped_retryable_C4_witness :
    generateAttempt sampleClient valueErrorTransport 0
      = .error (.networkError ("Generate failed: " ++ "Invalid input")
          (some (.otherError "Invalid input"))) ∧
    is_retryable_error
      (.networkError ("Generate failed: " ++ "Invalid input")
        (some (.otherError "Invalid input"))) = true :=
  unknown_error_wrapped_retryable_C4 sampleClient valueErrorTransport 0
    "Invalid input" rfl

/-- C5 counterexample: the classifier has no configuration-error branch —
a missing-environment-value error whose variable name mentions a connection
is classified retryable, contradicting the claim that every ConfigError is
non-retryable. -/
theorem config_error_classified_retryable_C5_cex :
    (PyErr.secretValueMissing "SECRET_NODE_CONNECTION").isConfigKind = true ∧
    is_retryable_error (.secretValueMissing "SECRET_NODE_CONNECTION") = true :=
  ⟨rfl, by decide⟩

/-- C5 (amended): the classifier returns false for every response error,
true for every network-family error (network, timeout, connection), and for
every other error — configuration errors included — exactly the
case-insensitive keyword scan of its message text; the spec's concrete
examples hold. -/
theorem is_retryable_error_spec_C5 :
    (∀ msg rdata, is_retryable_error (.responseError msg rdata) = false) ∧
    (∀ msg cause, is_retryable_error (.networkError msg cause) = true) ∧
    (∀ (t : ℚ) op, is_retryable_error (.timeoutError t op) = true) ∧
    (∀ h cause, is_retryable_error (.connectionError h cause) = true) ∧
    (∀ e : PyErr, e.isResponseInstance = false → e.isNetworkFamily = false →
      (is_retryable_error e = true ↔
        ∃ kw ∈ retryableKeywords,
          containsSubstring (lowerChars e.message) kw = true)) ∧
    is_retryable_error (.otherError "502 Bad Gateway") = true ∧
    is_retryable_error (.otherError "Invalid input") = false := by
  refine ⟨fun _ _ => rfl, fun _ _ => rfl, fun _ _ => rfl, fun _ _ => rfl,
    ?_, by decide, by decide⟩
  intro e h1 h2
  simp only [is_retryable_error, h1, h2, Bool.false_eq_true, if_false]
  exact List.any_eq_true

/-- C5 witness: the keyword-fallback characterization applied to a generic
error mentioning a 503 status. -/
theorem is_retryable_error_spec_C5_witness :
    is_retryable_error (.otherError "server returned 503") = true :=
  (is_retryable_error_spec_C5.2.2.2.2.1 (.otherError "server returned 503")
      rfl rfl).mpr ⟨"503", by decide, by decide⟩

/-- C6: the backoff schedule is
`min(initial_delay * multiplier ^ attempt, max_delay)` for every attempt
and configuration in the claimed domain, and the spec's concrete values
hold (1, 2, 4, 8 uncapped; 10 at the cap). -/
theorem calculate_delay_spec_C6 :
    (∀ (attempt : Nat) (initial mult cap : ℚ),
      0 ≤ initial → 1 ≤ mult → initial ≤ cap →
      calculate_delay attempt initial mult cap = min (initial * mult ^ attempt) cap) ∧
    calculate_delay 0 1 2 100 = 1 ∧
    calculate_delay 1 1 2 100 = 2 ∧
    calculate_delay 2 1 2 100 = 4 ∧
    calculate_delay 3 1 2 100 = 8 ∧
    calculate_delay 10 1 2 10 = 10 := by
  refine ⟨fun _ _ _ _ _ _ _ => rfl, ?_, ?_, ?_, ?_, ?_⟩ <;>
    norm_num [calculate_delay]

/-- C6 witness: the schedule equation applied at attempt 3 with the
spec's example configuration. -/
theorem calculate_delay_spec_C6_witness :
    calculate_delay 3 1 2 100 = min ((1 : ℚ) * 2 ^ 3) 100 :=
  calculate_delay_spec_C6.1 3 1 2 100 (by norm_num) (by norm_num) (by norm_num)

/-- C7: validation raises a `SecretAIResponseError` exactly when it is
enabled and the response is null or is a dict carrying an `error` key; a
`message` dict lacking `content` is only logged; disabled validation is a
no-op for every response. -/
theorem validate_response_spec_C7 :
    (∀ response, validateResponse false response = (none, [])) ∧
    (∀ response : Option PyVal,
      (∃ msg rdata, (validateResponse true response).1
          = some (.responseError msg rdata)) ↔
        (response = none ∨ ∃ entries, response = some (.dict entries) ∧
          (lookupKey entries "error").isSome = true)) ∧
    (∀ entries msgVal, lookupKey entries "error" = none →
      lookupKey entries "message" = some msgVal →
      pyContains msgVal "content" = some false →
      validateResponse true (some (.dict entries))
        = (none, ["Response message missing \x27content\x27 field"])) := by
  refine ⟨fun _ => rfl, ?_, ?_⟩
  · intro response
    cases response with
    | none => simp [validateResponse]
    | some v =>
      cases v with
      | dict entries =>
        cases hk : lookupKey entries "error" with
        | some errVal =>
          simp [validateResponse, hk]
        | none =>
          simp only [validateResponse, Bool.not_true, Bool.false_eq_true, if_false, hk]
          cases hm : lookupKey entries "message" with
          | none => simp [hk]
          | some msgVal =>
            cases hc : pyContains msgVal "content" with
            | none => simp [hc, hk]
            | some bb => cases bb <;> simp [hc, hk]
      | str s => simp [validateResponse]
      | int n => simp [validateResponse]
      | pyNone => simp [validateResponse]
  · intro entries msgVal hk hm hc
    simp [validateResponse, hk, hm, hc]

/-- C7 witness: the advisory branch applied to a chat response whose
`message` dict has no `content` key — a warning, no error. -/
theorem validate_response_spec_C7_witness :
    validateResponse true
        (some (.dict [("message", .dict [("role", .str "assistant")])]))
      = (none, ["Response message missing \x27content\x27 field"]) :=
  validate_response_spec_C7.2.2 [("message", .dict [("role", .str "assistant")])]
    (.dict [("role", .str "assistant")]) rfl rfl rfl

/-- C8: the blocking and cooperative retry adapters produce identical
traces — the same result (hence identical final error type, attempts and
last_error data), the same invocation count, and the same sleeps — for
every configuration, allow-list and operation; only the suspension
mechanism differs. -/
theorem sync_async_adapters_equal_C8 (α : Type) (env : Env) (mr : Option Int)
    (d b dm : Option ℚ) (retryable_exceptions : Option (PyErr → Bool))
    (op : Operation α) :
    retry_with_backoff_sync env mr d b dm retryable_exceptions op
      = retry_with_backoff_async env mr d b dm retryable_exceptions op :=
  syncGo_eq_asyncGo (mr.getD (get_retry_config env).max_retries)
    (d.getD (get_retry_config env).initial_delay)
    (b.getD (get_retry_config env).backoff_multiplier)
    (dm.getD (get_retry_config env).max_delay) retryable_exceptions op
    ((mr.getD (get_retry_config env).max_retries + 1).toNat) 0 none

/-- C9: a RetryExhausted error is itself network-family (subclass of the
network error) and therefore classified retryable for every attempts value
and last error; consequently an outer retry layer fed an already-exhausted
failure retries it (2 invocations at `max_retries = 1`) instead of
surfacing it at once. -/
theorem retryExhausted_classified_retryable_C9 :
    (∀ (attempts : Int) (last_error : Option PyErr),
      (PyErr.retryExhausted attempts last_error).isNetworkFamily = true ∧
      is_retryable_error (.retryExhausted attempts last_error) = true) ∧
    (retry_with_backoff_sync Env.empty (some 1) none none none none
      (fun _ => (retry_with_backoff_sync Env.empty (some 1) none none none none
        alwaysNetworkError).result)).invocations = 2 :=
  ⟨fun _ _ => ⟨rfl, rfl⟩, rfl⟩

/-- C10: configuration loading passes a negative `max_retries` through with
no domain validation, and the executor run with `max_retries = m < 0` never
invokes the operation, raising `RetryExhausted(m + 1, None)` with
`m + 1 ≤ 0` instead of a configuration-time error. -/
theorem negative_max_retries_C10 {α : Type} (env : Env) (m : Int) (hm : m < 0)
    (d b dm : Option ℚ) (filter : Option (PyErr → Bool)) (op : Operation α) :
    (get_retry_config { env with maxRetries := some m }).max_retries = m ∧
    m + 1 ≤ 0 ∧
    retry_with_backoff_sync env (some m) d b dm filter op
      = ⟨.error (.retryExhausted (m + 1) none), 0, []⟩ := by
  refine ⟨rfl, by omega, ?_⟩
  show syncGo m _ _ _ filter op (m + 1).toNat 0 none = _
  have h0 : (m + 1).toNat = 0 := by omega
  rw [h0, syncGo]

/-- C10 witness: the theorem applied at `max_retries = -1` with an
always-failing operation. -/
theorem negative_max_retries_C10_witness :
    (get_retry_config { Env.empty with maxRetries := some (-1) }).max_retries = -1 ∧
    (-1 : Int) + 1 ≤ 0 ∧
    retry_with_backoff_sync Env.empty (some (-1)) none none none none
        alwaysNetworkError
      = ⟨.error (.retryExhausted ((-1) + 1) none), 0, []⟩ :=
  negative_max_retries_C10 Env.empty (-1) (by norm_num) none none none none
    alwaysNetworkError

end SecretAI
